import Mathlib

/-!
Verification development for the Educhain Question Generator chatbot
(`src/app.py`): a Streamlit front-end that streams a Gemini model response,
dispatches at most one function call per user turn to a static handler map,
drives a Google OAuth2 flow, and publishes generated question sets as
Google Forms.

The embedding below translates the turn-processing loop of `main`
(app.py lines 434-487), the handler registry `function_map`, the OAuth
helpers `authenticate_google_api` / `complete_authentication`, the
form-publication pipeline `generate_form` / `create_form_with_questions`,
and the function schemas, into executable Lean definitions.  External
collaborators (the Gemini stream, the Educhain question engine, the Google
Forms service, the token endpoint) are parameters: the stream is a list of
fragments, handlers are an oracle function, the form service is represented
by the requests sent to it and the formId it returns.
-/

namespace EduApp

/-- A scalar argument value carried by a model function call
(protobuf Struct values as seen through `function_call.args`). -/
inductive Scalar where
  | str (s : String)
  | int (n : Int)
  | bool (b : Bool)
deriving DecidableEq, Repr

/-- The argument mapping of a function call: key → scalar value
(`function_call.args` in app.py line 445). -/
abbrev Args := List (String × Scalar)

/-- One streamed chunk of the model response, as inspected by the loop at
app.py lines 441-477: either a text delta (`chunk.text`), a function call
(`chunk.parts[0].function_call`), or an upstream failure raised while
iterating (caught by the `except` at line 482). -/
inductive Fragment where
  | textDelta (s : String)
  | call (name : String) (args : Args)
  | streamFailure
deriving DecidableEq, Repr

/-- Whether a fragment is a plain text delta. -/
def Fragment.isText : Fragment → Bool
  | .textDelta _ => true
  | _ => false

/-- The names registered in the static dispatcher `function_map`
(app.py lines 369-375). Handlers themselves are supplied as an oracle to
`runTurn`; the dispatcher consults only the name. -/
def function_map : List String :=
  ["generate_mcq", "generate_short_answer", "generate_true_false",
   "generate_fill_blank", "generate_form"]

/-- Keyword parameters accepted by every registered handler
(`topic, num_questions, custom_instructions=None` in app.py lines 264-312;
the leading `qna_engine_instance` is passed positionally, not via
`**arguments`). -/
def handlerParams : List String := ["topic", "num_questions", "custom_instructions"]

/-- Handler parameters without a default value: `topic` and `num_questions`. -/
def requiredHandlerParams : List String := ["topic", "num_questions"]

/-- Python keyword binding of `fn(qna_engine_instance, **arguments)`
(app.py lines 453 and 462): the call enters the handler body iff every
argument key names a parameter and every parameter without a default is
supplied; otherwise Python raises `TypeError` before the body runs. -/
def bindArgs (args : Args) : Bool :=
  args.all (fun kv => handlerParams.contains kv.1) &&
    requiredHandlerParams.all (fun k => (args.lookup k).isSome)

/-- A Python value returned by a handler, as far as the dispatch loop
inspects it: `None`, a string (the form URL), or a generated question-set
object (displayed via `display_questions`). -/
inductive PyValue where
  | noneV
  | strV (s : String)
  | qsetV (n : Nat)
deriving DecidableEq, Repr

/-- Python truthiness of a handler result, used by `if form_url:`
(app.py line 454): `None` and the empty string are falsy, a question-set
object is truthy. -/
def PyValue.truthy : PyValue → Bool
  | .noneV => false
  | .strV s => s ≠ ""
  | .qsetV _ => true

/-- String rendering of a handler value inside an f-string. -/
def renderPy : PyValue → String
  | .noneV => "None"
  | .strV s => s
  | .qsetV _ => "questions"

/-- Rendering of one scalar inside the `with args:` display text. -/
def renderScalar : Scalar → String
  | .str s => s
  | .int n => toString n
  | .bool b => toString b

/-- Rendering of the argument mapping inside the `with args:` display text
(app.py line 446). -/
def renderArgs (args : Args) : String :=
  String.intercalate ", " (args.map (fun kv => kv.1 ++ ": " ++ renderScalar kv.2))

/-- A `st.error` surfaced during turn processing, identified by branch:
the unknown-function message of app.py line 468
(`Error: Unknown function name ... received from model.`) or the
generic exception message of line 483 (`An error occurred: ...`). -/
inductive UiError where
  | unknownFunctionName (name : String)
  | turnException
deriving DecidableEq, Repr

/-- Observable result of processing one user turn:
`invocations` records each handler body actually entered, with the
arguments it received; `uiErrors` the `st.error` calls; `response` the
final value of `full_response`; `historyAppend` the string appended to
`st.session_state.messages` at app.py line 487. -/
structure TurnState where
  invocations : List (String × Args)
  uiErrors : List UiError
  response : String
  historyAppend : String
deriving DecidableEq, Repr

/-- The fixed history message stored whenever a function call was handled
(app.py line 487). -/
def fixedCallMsg : String := "Function call processed. See questions below."

/-- A handler oracle: what a registered handler returns (`Except.ok`) or
that it raised (`Except.error ()`), for a given name and arguments.  The
handlers call external services (Educhain engine, Google Forms), which the
loop observes only through this result. -/
abbrev HandlerOracle := String → Args → Except Unit PyValue

/-- The chunk-streaming loop of `main` (app.py lines 440-487), with
`acc` the running `full_response`.  Text deltas accumulate; the first
`call` chunk is dispatched and the loop `break`s, so no later fragment is
inspected; a stream failure or an exception inside dispatch lands in the
`except` branch (`An error occurred`, response `Error generating
response.`).  An unregistered name yields the unknown-function error and
invokes nothing; a registered name whose arguments fail Python keyword
binding raises `TypeError` before the handler body runs. -/
def runTurnAux (h : HandlerOracle) : List Fragment → String → TurnState
  | [], acc =>
    { invocations := [], uiErrors := [], response := acc, historyAppend := acc }
  | .textDelta s :: rest, acc => runTurnAux h rest (acc ++ s)
  | .streamFailure :: _, _ =>
    { invocations := [], uiErrors := [.turnException],
      response := "Error generating response.",
      historyAppend := "Error generating response." }
  | .call name args :: _, _ =>
    if name ∈ function_map then
      if bindArgs args then
        match h name args with
        | .error _ =>
          { invocations := [(name, args)], uiErrors := [.turnException],
            response := "Error generating response.",
            historyAppend := fixedCallMsg }
        | .ok v =>
          if name = "generate_form" then
            if v.truthy then
              { invocations := [(name, args)], uiErrors := [],
                response := "Google Form created: [Click here](" ++ renderPy v ++ ")",
                historyAppend := fixedCallMsg }
            else
              { invocations := [(name, args)], uiErrors := [],
                response := "Failed to create Google Form.",
                historyAppend := fixedCallMsg }
          else
            { invocations := [(name, args)], uiErrors := [],
              response := "Function Call: " ++ name ++ " with args: " ++ renderArgs args,
              historyAppend := fixedCallMsg }
      else
        { invocations := [], uiErrors := [.turnException],
          response := "Error generating response.",
          historyAppend := fixedCallMsg }
    else
      { invocations := [], uiErrors := [.unknownFunctionName name],
        response := "Error processing function call.",
        historyAppend := fixedCallMsg }

/-- Processing of one user turn from an empty `full_response`. -/
def runTurn (h : HandlerOracle) (frags : List Fragment) : TurnState :=
  runTurnAux h frags ""

/-- The top-level gate of `main` (app.py lines 409 and 488-489): the chat
interface, and with it all turn processing, lives under
`if st.session_state.get("authenticated", False):`; otherwise only the
`Please authenticate` info message is rendered. -/
inductive AppView where
  | authPrompt
  | chat (turn : Option TurnState)
deriving DecidableEq, Repr

/-- One render of the authenticated-gated main content: when
`authenticated` is set the chat UI is shown and an entered prompt (here:
the fragment stream it elicits) is processed by the turn loop; otherwise
the info prompt is the whole page. -/
def mainView (authenticated : Bool) (h : HandlerOracle)
    (prompt : Option (List Fragment)) : AppView :=
  if authenticated then AppView.chat (prompt.map (runTurn h)) else AppView.authPrompt

/-- The scalar types appearing in the function parameter schemas
(app.py lines 100-101): `STRING` and `INTEGER`. -/
inductive SchemaType where
  | STRING
  | INTEGER
deriving DecidableEq, Repr

/-- An `OBJECT` parameter schema: property name → declared scalar type,
plus the list of required property names. -/
structure Schema where
  properties : List (String × SchemaType)
  required : List String
deriving DecidableEq, Repr

/-- `mcq_params_schema` (app.py lines 104-112): topic STRING,
num_questions INTEGER, custom_instructions STRING; required topic and
num_questions.  The schemas for the other four functions
(lines 114-152) are identical. -/
def mcq_params_schema : Schema :=
  { properties := [("topic", SchemaType.STRING), ("num_questions", SchemaType.INTEGER),
                   ("custom_instructions", SchemaType.STRING)],
    required := ["topic", "num_questions"] }

/-- Whether a scalar value matches a declared schema type. -/
def scalarMatches : SchemaType → Scalar → Bool
  | .STRING, .str _ => true
  | .INTEGER, .int _ => true
  | _, _ => false

/-- Modelled from the spec: the argument-validation predicate the spec
attributes to the dispatcher (presence of all required keys, scalar-type
match for every key the schema declares).  Stated here for comparison;
the dispatch code in `main` performs no such check. -/
def schemaValidates (sch : Schema) (args : Args) : Bool :=
  sch.required.all (fun k => (args.lookup k).isSome) &&
    args.all (fun kv =>
      match sch.properties.lookup kv.1 with
      | some t => scalarMatches t kv.2
      | none => true)

/-- A stored Google credential record, with the fields the spec's data
model names.  `generate_form` reads the record only through
`st.session_state.get("credentials", None)` and its truthiness. -/
structure Credential where
  accessToken : String
  refreshToken : String
  expiry : Int
  valid : Bool
deriving DecidableEq, Repr

/-- The per-session authentication state kept in `st.session_state`:
`oauth_state` (set at app.py line 59), `credentials` and `authenticated`
(set at lines 89-90). -/
structure AuthSession where
  oauth_state : Option String
  credentials : Option Credential
  authenticated : Bool
deriving DecidableEq, Repr

/-- `authenticate_google_api` (app.py lines 34-65): builds an
`InstalledAppFlow`, obtains `(authorization_url, state)` from
`flow.authorization_url(...)` — both produced by the external OAuth
library and therefore parameters here — stores the state token in
`st.session_state["oauth_state"]`, overwriting any prior value, and
returns the authorization URL. -/
def authenticate_google_api (s : AuthSession) (freshState authUrl : String) :
    AuthSession × String :=
  ({ s with oauth_state := some freshState }, authUrl)

/-- The outcome of `flow.fetch_token(code=auth_code)` as a function of the
code and of the stored state the flow was constructed with: `some` a
credential record on success, `none` when the token endpoint fails (the
exception is caught at app.py line 95). -/
abbrev TokenExchange := String → Option String → Option Credential

/-- `complete_authentication` (app.py lines 67-97): receives only the
authorization code, rebuilds the flow with
`state=st.session_state.get("oauth_state")`, and exchanges the code.  On
success it stores the credentials, sets `authenticated`, and returns them;
the stored `oauth_state` is left untouched.  On failure the session is
unchanged and `None` is returned. -/
def complete_authentication (s : AuthSession) (auth_code : String)
    (exchange : TokenExchange) : AuthSession × Option Credential :=
  match exchange auth_code s.oauth_state with
  | some cred =>
    ({ s with credentials := some cred, authenticated := true }, some cred)
  | none => (s, none)

/-- A generated question, following the closed variant of the spec's data
model.  The translation code discriminates only via
`hasattr(question_data, 'options')` (app.py line 215), which among these
variants holds exactly for multiple choice. -/
inductive Question where
  | multipleChoice (question : String) (options : List String) (answer : String)
      (explanation : Option String)
  | shortAnswer (question : String) (answer : String) (explanation : Option String)
  | trueFalse (question : String) (answer : Bool) (explanation : Option String)
  | fillBlank (question : String) (answer : String) (keywords : List String)
      (explanation : Option String)
deriving DecidableEq, Repr

/-- The `question` (prompt text) attribute shared by all variants. -/
def Question.question : Question → String
  | .multipleChoice q _ _ _ => q
  | .shortAnswer q _ _ => q
  | .trueFalse q _ _ => q
  | .fillBlank q _ _ _ => q

/-- `hasattr(question_data, 'options')`: true exactly for the
multiple-choice variant. -/
def Question.hasOptions : Question → Bool
  | .multipleChoice _ _ _ _ => true
  | _ => false

/-- The `options` attribute (empty for variants that lack it). -/
def Question.options : Question → List String
  | .multipleChoice _ opts _ _ => opts
  | _ => []

/-- The field part of a Forms `createItem` request: a single-selection
`choiceQuestion` of type RADIO with its option values, or a free-text
`textQuestion`. -/
inductive FieldKind where
  | radio (options : List String)
  | textQuestion
deriving DecidableEq, Repr

/-- One `createItem` entry of the batchUpdate payload (app.py
lines 216-247): item title, question field, and `location.index`. -/
structure CreateItemRequest where
  title : String
  kind : FieldKind
  index : Nat
deriving DecidableEq, Repr

/-- The loop body of `create_form_with_questions` for index `i`:
a question with `options` becomes a RADIO choice question listing
`question_data.options` verbatim; any other question becomes a
`textQuestion`; either way the item is placed at `location.index = i`
with title `question_data.question`. -/
def questionToItem (i : Nat) (q : Question) : CreateItemRequest :=
  if q.hasOptions then
    { title := q.question, kind := FieldKind.radio q.options, index := i }
  else
    { title := q.question, kind := FieldKind.textQuestion, index := i }

/-- The `for i, question_data in enumerate(questions.questions)` loop
(app.py line 214), building the `requests` list with a running index. -/
def buildRequestsAux : Nat → List Question → List CreateItemRequest
  | _, [] => []
  | i, q :: rest => questionToItem i q :: buildRequestsAux (i + 1) rest

/-- The complete `requests` payload built from a question list,
enumerating from 0. -/
def buildRequests (qs : List Question) : List CreateItemRequest :=
  buildRequestsAux 0 qs

/-- A request sent to the Google Forms service:
`forms().create(body=...)` with the form title, or
`forms().batchUpdate(formId=..., body=...)` with the item requests. -/
inductive ServiceCall where
  | createForm (title : String)
  | batchUpdate (formId : String) (requests : List CreateItemRequest)
deriving DecidableEq, Repr

/-- `FORM_TITLE` (app.py line 19). -/
def FORM_TITLE : String := "QUIZ"

/-- `create_form_with_questions` (app.py lines 196-256) on the path where
the external service succeeds; `formId` is the id the create call returns.
It issues one `create` request, then one `batchUpdate` request only when
the built `requests` list is non-empty (`if requests:`), and returns the
viewform URL built from the formId.  The first component lists the service
calls issued, in order; the second is the returned `form_url`. -/
def create_form_with_questions (formId : String) (form_title : String)
    (qs : List Question) : List ServiceCall × String :=
  let requests := buildRequests qs
  (ServiceCall.createForm form_title ::
      (if requests.isEmpty then [] else [ServiceCall.batchUpdate formId requests]),
    "https://docs.google.com/forms/d/" ++ formId ++ "/viewform")

/-- `generate_form` (app.py lines 312-334): reads
`st.session_state.get("credentials", None)`; if absent, shows
`Not authenticated. Please log in first.` and returns `None` without
calling the engine or the form service; otherwise generates questions
(`qs`, the engine's output, a parameter here) and publishes them via
`create_form_with_questions`, returning the form URL.  The second
component lists the Forms service calls issued.  No expiry or validity
field of the credential is consulted, and no authorization request is
issued on the unauthenticated path. -/
def generate_form (credentials : Option Credential) (qs : List Question)
    (formId : String) : Option String × List ServiceCall :=
  match credentials with
  | none => (none, [])
  | some _ =>
    let r := create_form_with_questions formId FORM_TITLE qs
    (some r.2, r.1)

/-! ### Helper lemmas about the turn loop -/

/-- Concatenation of the text carried by a fragment list. -/
def textConcat : List Fragment → String
  | [] => ""
  | .textDelta s :: rest => s ++ textConcat rest
  | _ :: rest => textConcat rest

/-- A prefix of pure text deltas only grows the running buffer. -/
lemma runTurnAux_append_text (h : HandlerOracle) :
    ∀ (pre rest : List Fragment) (acc : String),
      pre.all Fragment.isText = true →
      runTurnAux h (pre ++ rest) acc = runTurnAux h rest (acc ++ textConcat pre)
  | [], rest, acc, _ => by simp [textConcat]
  | .textDelta s :: pre, rest, acc, hpre => by
    have hpre' : pre.all Fragment.isText = true := by
      simpa [List.all_cons, Fragment.isText] using hpre
    show runTurnAux h (pre ++ rest) (acc ++ s) = runTurnAux h rest (acc ++ (s ++ textConcat pre))
    rw [runTurnAux_append_text h pre rest (acc ++ s) hpre', String.append_assoc]
  | .call n a :: pre, rest, acc, hpre => by
    simp [List.all_cons, Fragment.isText] at hpre
  | .streamFailure :: pre, rest, acc, hpre => by
    simp [List.all_cons, Fragment.isText] at hpre

/-- The call branch of the loop ignores both the running buffer and the
remaining fragments: dispatch is followed by `break`. -/
lemma runTurnAux_call_irrelevant (h : HandlerOracle) (name : String) (args : Args)
    (rest rest' : List Fragment) (acc acc' : String) :
    runTurnAux h (.call name args :: rest) acc
      = runTurnAux h (.call name args :: rest') acc' := rfl

/-- A registered call whose arguments bind enters the handler body exactly
once, with exactly the call's arguments, whatever the handler then does. -/
lemma runTurnAux_call_invocations (h : HandlerOracle) (name : String) (args : Args)
    (rest : List Fragment) (acc : String)
    (hreg : name ∈ function_map) (hbind : bindArgs args = true) :
    (runTurnAux h (.call name args :: rest) acc).invocations = [(name, args)] := by
  cases hv : h name args with
  | error e => simp [runTurnAux, hreg, hbind, hv]
  | ok v =>
    by_cases hf : name = "generate_form"
    · subst hf
      by_cases ht : v.truthy <;> simp [runTurnAux, hreg, hbind, hv, ht]
    · simp [runTurnAux, hreg, hbind, hv, hf]

/-- Whenever a call chunk is dispatched, the history message appended at
the end of the turn is the fixed `Function call processed` text. -/
lemma runTurnAux_call_history (h : HandlerOracle) (name : String) (args : Args)
    (rest : List Fragment) (acc : String) :
    (runTurnAux h (.call name args :: rest) acc).historyAppend = fixedCallMsg := by
  by_cases hreg : name ∈ function_map
  · by_cases hbind : bindArgs args = true
    · cases hv : h name args with
      | error e => simp [runTurnAux, hreg, hbind, hv]
      | ok v =>
        by_cases hf : name = "generate_form"
        · subst hf
          by_cases ht : v.truthy <;> simp [runTurnAux, hreg, hbind, hv, ht]
        · simp [runTurnAux, hreg, hbind, hv, hf]
    · simp [runTurnAux, hreg, hbind]
  · simp [runTurnAux, hreg]

/-- A handler oracle that always returns a question set. -/
def hOk : HandlerOracle := fun _ _ => Except.ok (PyValue.qsetV 2)

/-- The argument mapping of the spec's worked example. -/
def exampleArgs : Args := [("topic", Scalar.str "math"), ("num_questions", Scalar.int 2)]

/-! ### Claims -/

/-- C1: on a stream whose first call names a registered function with
bindable arguments, the turn consumes the text prefix sequentially, stops
at that call, invokes the handler exactly once with exactly the call's
arguments, and its outcome is independent of every fragment after the
call. -/
theorem C1_dispatch_stops_at_first_call (h : HandlerOracle)
    (pre post : List Fragment) (name : String) (args : Args)
    (hpre : pre.all Fragment.isText = true)
    (hreg : name ∈ function_map) (hbind : bindArgs args = true) :
    runTurn h (pre ++ Fragment.call name args :: post)
      = runTurn h (pre ++ [Fragment.call name args]) ∧
    (runTurn h (pre ++ Fragment.call name args :: post)).invocations = [(name, args)] := by
  unfold runTurn
  rw [runTurnAux_append_text h pre _ "" hpre, runTurnAux_append_text h pre _ "" hpre]
  exact ⟨runTurnAux_call_irrelevant h name args post [] _ _,
    runTurnAux_call_invocations h name args post _ hreg hbind⟩

/-- Witness for C1: the spec's own example stream
`[text "hi", call generate_mcq {topic: math, num_questions: 2}, text "ignored"]`. -/
theorem C1_dispatch_stops_at_first_call_witness :
    ([Fragment.textDelta "hi"].all Fragment.isText = true) ∧
    ("generate_mcq" ∈ function_map) ∧ (bindArgs exampleArgs = true) ∧
    (runTurn hOk ([Fragment.textDelta "hi"] ++
        Fragment.call "generate_mcq" exampleArgs :: [Fragment.textDelta "ignored"])
      = runTurn hOk ([Fragment.textDelta "hi"] ++ [Fragment.call "generate_mcq" exampleArgs]) ∧
     (runTurn hOk ([Fragment.textDelta "hi"] ++
        Fragment.call "generate_mcq" exampleArgs :: [Fragment.textDelta "ignored"])).invocations
      = [("generate_mcq", exampleArgs)]) :=
  ⟨by decide, by decide, by decide,
    C1_dispatch_stops_at_first_call hOk [Fragment.textDelta "hi"] [Fragment.textDelta "ignored"]
      "generate_mcq" exampleArgs (by decide) (by decide) (by decide)⟩

/-- C6: a call whose name is not in `function_map` invokes no handler;
the turn surfaces the unknown-function error and the
`Error processing function call.` response. -/
theorem C6_unknown_function_no_handler (h : HandlerOracle)
    (pre post : List Fragment) (name : String) (args : Args)
    (hpre : pre.all Fragment.isText = true) (hunreg : name ∉ function_map) :
    (runTurn h (pre ++ Fragment.call name args :: post)).invocations = [] ∧
    (runTurn h (pre ++ Fragment.call name args :: post)).uiErrors
      = [UiError.unknownFunctionName name] ∧
    (runTurn h (pre ++ Fragment.call name args :: post)).response
      = "Error processing function call." := by
  unfold runTurn
  rw [runTurnAux_append_text h pre _ "" hpre]
  simp [runTurnAux, hunreg]

/-- Witness for C6: the spec's example name `foo_bar`. -/
theorem C6_unknown_function_no_handler_witness :
    (([] : List Fragment).all Fragment.isText = true) ∧
    ("foo_bar" ∉ function_map) ∧
    ((runTurn hOk ([] ++ Fragment.call "foo_bar" [] :: [])).invocations = [] ∧
     (runTurn hOk ([] ++ Fragment.call "foo_bar" [] :: [])).uiErrors
       = [UiError.unknownFunctionName "foo_bar"] ∧
     (runTurn hOk ([] ++ Fragment.call "foo_bar" [] :: [])).response
       = "Error processing function call.") :=
  ⟨by decide, by decide,
    C6_unknown_function_no_handler hOk [] [] "foo_bar" [] (by decide) (by decide)⟩

/-- An argument mapping that violates `mcq_params_schema` (the declared
type of `num_questions` is INTEGER, the value is a string) but binds fine
as Python keyword arguments. -/
def badArgs : Args := [("topic", Scalar.str "math"), ("num_questions", Scalar.str "two")]

/-- Counterexample to C2: dispatching `generate_mcq` with a
schema-violating argument mapping (string where the schema says INTEGER)
still enters the handler body — the dispatcher performs no schema
validation and no `InvalidArguments` failure exists. -/
theorem C2_cex_type_mismatch_handler_runs :
    schemaValidates mcq_params_schema badArgs = false ∧
    bindArgs badArgs = true ∧
    (runTurn hOk [Fragment.call "generate_mcq" badArgs]).invocations
      = [("generate_mcq", badArgs)] ∧
    (runTurn hOk [Fragment.call "generate_mcq" badArgs]).uiErrors = [] := by
  refine ⟨by decide, by decide, ?_, ?_⟩ <;> rfl

/-- C2 as amended: the dispatcher performs no schema validation.  Python
keyword binding is the only gate: if it fails (required key absent or
unknown key present) the `TypeError` is caught by the turn's generic
exception handler and the handler body never runs; if it succeeds the
handler runs with the arguments exactly as given, scalar types
unchecked. -/
theorem C2_no_schema_validation (h : HandlerOracle)
    (pre post : List Fragment) (name : String) (args : Args)
    (hpre : pre.all Fragment.isText = true) (hreg : name ∈ function_map) :
    (bindArgs args = true →
      (runTurn h (pre ++ Fragment.call name args :: post)).invocations = [(name, args)]) ∧
    (bindArgs args = false →
      (runTurn h (pre ++ Fragment.call name args :: post)).invocations = [] ∧
      (runTurn h (pre ++ Fragment.call name args :: post)).response
        = "Error generating response." ∧
      (runTurn h (pre ++ Fragment.call name args :: post)).uiErrors
        = [UiError.turnException]) := by
  unfold runTurn
  rw [runTurnAux_append_text h pre _ "" hpre]
  constructor
  · intro hbind
    exact runTurnAux_call_invocations h name args post _ hreg hbind
  · intro hbind
    simp [runTurnAux, hreg, hbind]

/-- Witness for C2 as amended: `generate_mcq` with the example arguments
(binding succeeds, handler runs) and with an empty argument mapping
(required parameters unbound, generic error, no handler). -/
theorem C2_no_schema_validation_witness :
    (([] : List Fragment).all Fragment.isText = true) ∧
    ("generate_mcq" ∈ function_map) ∧
    (bindArgs exampleArgs = true →
      (runTurn hOk ([] ++ Fragment.call "generate_mcq" exampleArgs :: [])).invocations
        = [("generate_mcq", exampleArgs)]) ∧
    (bindArgs ([] : Args) = false →
      (runTurn hOk ([] ++ Fragment.call "generate_mcq" ([] : Args) :: [])).invocations = [] ∧
      (runTurn hOk ([] ++ Fragment.call "generate_mcq" ([] : Args) :: [])).response
        = "Error generating response." ∧
      (runTurn hOk ([] ++ Fragment.call "generate_mcq" ([] : Args) :: [])).uiErrors
        = [UiError.turnException]) :=
  ⟨by decide, by decide,
    (C2_no_schema_validation hOk [] [] "generate_mcq" exampleArgs (by decide) (by decide)).1,
    (C2_no_schema_validation hOk [] [] "generate_mcq" ([] : Args) (by decide) (by decide)).2⟩

/-- Counterexample to C8: a turn that fails with the unknown-function
error does surface a UI error and an error response text, but the message
appended to the session history is the fixed
`Function call processed. See questions below.` — not the error.  The
error is therefore not recorded in history, contrary to the claim. -/
theorem C8_cex_error_not_in_history :
    (runTurn hOk [Fragment.call "foo_bar" []]).uiErrors
      = [UiError.unknownFunctionName "foo_bar"] ∧
    (runTurn hOk [Fragment.call "foo_bar" []]).response
      = "Error processing function call." ∧
    (runTurn hOk [Fragment.call "foo_bar" []]).historyAppend = fixedCallMsg ∧
    fixedCallMsg ≠ "Error processing function call." := by
  refine ⟨rfl, rfl, rfl, by decide⟩

/-- C8 as amended: whenever a call chunk was dispatched, the history
message is the fixed `Function call processed` text regardless of any
error (errors on those paths reach the UI and the displayed response
only); only a turn with no call records its error text — a stream failure
appends `Error generating response.` to history. -/
theorem C8_history_drops_call_errors (h : HandlerOracle)
    (pre post : List Fragment) (name : String) (args : Args)
    (hpre : pre.all Fragment.isText = true) :
    (runTurn h (pre ++ Fragment.call name args :: post)).historyAppend = fixedCallMsg ∧
    (runTurn h (pre ++ Fragment.streamFailure :: post)).historyAppend
      = "Error generating response." := by
  unfold runTurn
  rw [runTurnAux_append_text h pre _ "" hpre, runTurnAux_append_text h pre _ "" hpre]
  exact ⟨runTurnAux_call_history h name args post _, rfl⟩

/-- Witness for C8 as amended: a lone unknown call and a lone stream
failure. -/
theorem C8_history_drops_call_errors_witness :
    (([] : List Fragment).all Fragment.isText = true) ∧
    ((runTurn hOk ([] ++ Fragment.call "foo_bar" [] :: [])).historyAppend = fixedCallMsg ∧
     (runTurn hOk ([] ++ Fragment.streamFailure :: [])).historyAppend
       = "Error generating response.") :=
  ⟨by decide, C8_history_drops_call_errors hOk [] [] "foo_bar" [] (by decide)⟩

/-- C9: turn processing is gated on the session's `authenticated` flag —
an unauthenticated render is exactly the authenticate prompt, and any
render that shows the chat interface (hence any processed turn) has the
flag set. -/
theorem C9_chat_requires_authentication :
    (∀ (h : HandlerOracle) (p : Option (List Fragment)),
      mainView false h p = AppView.authPrompt) ∧
    (∀ (a : Bool) (h : HandlerOracle) (p : Option (List Fragment)) (t : Option TurnState),
      mainView a h p = AppView.chat t → a = true) := by
  constructor
  · intro h p; rfl
  · intro a h p t hview
    cases a with
    | true => rfl
    | false => simp [mainView] at hview

/-- Witness for C9: a concrete unauthenticated render and a concrete chat
render. -/
theorem C9_chat_requires_authentication_witness :
    mainView false hOk none = AppView.authPrompt ∧ true = true :=
  ⟨C9_chat_requires_authentication.1 hOk none,
   C9_chat_requires_authentication.2 true hOk none none rfl⟩

/-- A credential record whose expiry lies in the past while the `valid`
flag is still set. -/
def staleCred : Credential :=
  { accessToken := "tok", refreshToken := "ref", expiry := 0, valid := true }

/-- Counterexample to C3: with a stored credential whose expiry is in the
past (and `valid = true`), `generate_form` does not treat the state as
EXPIRED and does not return an authorization request — it publishes: the
form service is called and the viewform URL is returned.  The handler
never reads `expiry` or `valid` at all. -/
theorem C3_cex_expired_credential_publishes :
    staleCred.valid = true ∧ staleCred.expiry < 1700000000 ∧
    generate_form (some staleCred) [] "f1"
      = (some "https://docs.google.com/forms/d/f1/viewform",
         [ServiceCall.createForm "QUIZ"]) := by
  refine ⟨rfl, by norm_num [staleCred], rfl⟩

/-- C3 as amended: `generate_form` consults only the presence of a
credential record.  Any stored credential — expired or not, whatever its
`valid` flag — leads to publishing via `create_form_with_questions`; an
absent credential yields a `None` return with no service call and no
authorization request. -/
theorem C3_presence_only_check (c : Credential) (qs : List Question) (formId : String) :
    generate_form (some c) qs formId
      = (some (create_form_with_questions formId FORM_TITLE qs).2,
         (create_form_with_questions formId FORM_TITLE qs).1) ∧
    generate_form none qs formId = ((none : Option String), ([] : List ServiceCall)) :=
  ⟨rfl, rfl⟩

/-- The credential record produced by a successful token exchange in the
examples below. -/
def credOk : Credential :=
  { accessToken := "at", refreshToken := "rt", expiry := 9999, valid := true }

/-- A token exchange that always succeeds with `credOk`. -/
def exchangeOk : TokenExchange := fun _ _ => some credOk

/-- A session that has issued an authorization URL and stores its pending
state token. -/
def sessionPending : AuthSession :=
  { oauth_state := some "state2", credentials := none, authenticated := false }

/-- Counterexample to C4: a successful `complete_authentication` sets the
authenticated flag but leaves the pending state token stored — the token
is not cleared on success, so it is not single-use. -/
theorem C4_cex_token_not_cleared :
    (complete_authentication sessionPending "code1" exchangeOk).1.authenticated = true ∧
    (complete_authentication sessionPending "code1" exchangeOk).1.oauth_state
      = some "state2" ∧
    some "state2" ≠ (none : Option String) := by
  refine ⟨rfl, rfl, by decide⟩

/-- C4 as amended: `authenticate_google_api` does overwrite any prior
pending token with the freshly issued one; but `complete_authentication`
receives only the authorization code, uses the stored token as the flow's
state without comparing it to any caller-supplied value, stores the
credentials and sets the flag on success, leaves the session unchanged on
exchange failure — and in no case clears the stored token. -/
theorem C4_overwrite_but_no_clear (s : AuthSession)
    (t1 u1 t2 u2 code : String) (ex : TokenExchange) :
    ((authenticate_google_api (authenticate_google_api s t1 u1).1 t2 u2).1.oauth_state
      = some t2) ∧
    (∀ c, ex code s.oauth_state = some c →
      complete_authentication s code ex
        = ({ s with credentials := some c, authenticated := true }, some c)) ∧
    (ex code s.oauth_state = none → complete_authentication s code ex = (s, none)) ∧
    ((complete_authentication s code ex).1.oauth_state = s.oauth_state) := by
  refine ⟨rfl, ?_, ?_, ?_⟩
  · intro c hc; simp [complete_authentication, hc]
  · intro hn; simp [complete_authentication, hn]
  · cases hc : ex code s.oauth_state <;> simp [complete_authentication, hc]

/-- Witness for C4 as amended: two consecutive authorization requests on a
concrete session, and a concrete successful exchange. -/
theorem C4_overwrite_but_no_clear_witness :
    ((authenticate_google_api (authenticate_google_api sessionPending "t1" "u1").1
        "t2" "u2").1.oauth_state = some "t2") ∧
    (complete_authentication sessionPending "code1" exchangeOk
      = ({ sessionPending with credentials := some credOk, authenticated := true },
         some credOk)) ∧
    ((complete_authentication sessionPending "code1" exchangeOk).1.oauth_state
      = sessionPending.oauth_state) :=
  ⟨(C4_overwrite_but_no_clear sessionPending "t1" "u1" "t2" "u2" "code1" exchangeOk).1,
   (C4_overwrite_but_no_clear sessionPending "t1" "u1" "t2" "u2" "code1" exchangeOk).2.1
     credOk rfl,
   (C4_overwrite_but_no_clear sessionPending "t1" "u1" "t2" "u2" "code1" exchangeOk).2.2.2⟩

/-- Counterexample to C5: with no credentials, `generate_form` returns the
untagged value `None` — no `AuthorizationRequired(url)` result, no URL at
all, and no authorization request or service call is issued. -/
theorem C5_cex_unauthenticated_returns_none :
    generate_form none [] "f1" = ((none : Option String), ([] : List ServiceCall)) := rfl

/-- C5 as amended: `generate_form` produces an untagged optional string —
the viewform URL when credentials are present, `None` otherwise (never an
authorization URL) — and the caller in `main` distinguishes the outcomes
by Python truthiness of that value, rendering a form link for a non-empty
string and the `Failed to create Google Form.` text for `None`. -/
theorem C5_untagged_truthiness (args : Args) (u : String)
    (hbind : bindArgs args = true) (hu : u ≠ "") :
    (runTurn (fun _ _ => Except.ok (PyValue.strV u))
        [Fragment.call "generate_form" args]).response
      = "Google Form created: [Click here](" ++ u ++ ")" ∧
    (runTurn (fun _ _ => Except.ok PyValue.noneV)
        [Fragment.call "generate_form" args]).response
      = "Failed to create Google Form." ∧
    (∀ (qs : List Question) (formId : String),
      generate_form none qs formId = ((none : Option String), ([] : List ServiceCall))) := by
  have hreg : "generate_form" ∈ function_map := by decide
  refine ⟨?_, ?_, fun qs formId => rfl⟩
  · simp [runTurn, runTurnAux, hreg, hbind, PyValue.truthy, renderPy, hu]
  · simp [runTurn, runTurnAux, hreg, hbind, PyValue.truthy]

/-- Witness for C5 as amended: the example arguments and a concrete URL. -/
theorem C5_untagged_truthiness_witness :
    (bindArgs exampleArgs = true) ∧ ("https://x" ≠ "") ∧
    ((runTurn (fun _ _ => Except.ok (PyValue.strV "https://x"))
        [Fragment.call "generate_form" exampleArgs]).response
      = "Google Form created: [Click here](" ++ "https://x" ++ ")" ∧
     (runTurn (fun _ _ => Except.ok PyValue.noneV)
        [Fragment.call "generate_form" exampleArgs]).response
      = "Failed to create Google Form." ∧
     (∀ (qs : List Question) (formId : String),
       generate_form none qs formId = ((none : Option String), ([] : List ServiceCall)))) :=
  ⟨by decide, by decide,
    C5_untagged_truthiness exampleArgs "https://x" (by decide) (by decide)⟩

/-- The enumerate loop preserves the number of entries. -/
lemma buildRequestsAux_length :
    ∀ (qs : List Question) (k : Nat), (buildRequestsAux k qs).length = qs.length
  | [], _ => rfl
  | _ :: rest, k => by
    simp [buildRequestsAux, buildRequestsAux_length rest (k + 1)]

/-- Entry `i` of the enumerate loop started at `k` is the translation of
question `i` at location `k + i`. -/
lemma buildRequestsAux_getElem? :
    ∀ (qs : List Question) (k i : Nat),
      (buildRequestsAux k qs)[i]? = (qs[i]?).map (fun q => questionToItem (k + i) q)
  | [], _, _ => by simp [buildRequestsAux]
  | q :: rest, k, 0 => by simp [buildRequestsAux]
  | q :: rest, k, i + 1 => by
    have hk : k + 1 + i = k + (i + 1) := by omega
    simp [buildRequestsAux, buildRequestsAux_getElem? rest (k + 1) i, hk]

/-- Counterexample to C7: for the empty question set the publish consists
of the creation request alone — no batched population request follows
(`if requests:` skips it). -/
theorem C7_cex_empty_set_skips_batch :
    (create_form_with_questions "f1" "QUIZ" []).1 = [ServiceCall.createForm "QUIZ"] ∧
    ServiceCall.batchUpdate "f1" (buildRequests [])
      ∉ (create_form_with_questions "f1" "QUIZ" []).1 := by
  refine ⟨rfl, by decide⟩

/-- C7 as amended: translation is deterministic and order-preserving —
the entry at position `i` of the built request list is the translation of
the question at position `i`, placed at `location.index = i`; a
multiple-choice question becomes a RADIO field listing its options
verbatim in source order, every other variant a free-text field; the
submission is one creation request followed, when the set is non-empty,
by one batched population request (skipped for an empty set). -/
theorem C7_order_preserving_translation (qs : List Question) (formId title : String) :
    ((buildRequests qs).length = qs.length) ∧
    (∀ i : Nat, (buildRequests qs)[i]? = (qs[i]?).map (fun q => questionToItem i q)) ∧
    (∀ (p : String) (opts : List String) (ans : String) (expl : Option String) (i : Nat),
      questionToItem i (Question.multipleChoice p opts ans expl)
        = { title := p, kind := FieldKind.radio opts, index := i }) ∧
    (∀ (q : Question) (i : Nat), q.hasOptions = false →
      questionToItem i q
        = { title := q.question, kind := FieldKind.textQuestion, index := i }) ∧
    ((create_form_with_questions formId title qs).1.head?
      = some (ServiceCall.createForm title)) ∧
    (qs ≠ [] →
      (create_form_with_questions formId title qs).1
        = [ServiceCall.createForm title, ServiceCall.batchUpdate formId (buildRequests qs)]) := by
  refine ⟨buildRequestsAux_length qs 0, ?_, fun p opts ans expl i => rfl, ?_, rfl, ?_⟩
  · intro i
    simpa using buildRequestsAux_getElem? qs 0 i
  · intro q i hq
    simp [questionToItem, hq]
  · intro hqs
    cases qs with
    | nil => exact absurd rfl hqs
    | cons q rest => simp [create_form_with_questions, buildRequests, buildRequestsAux]

/-- A two-question set: one multiple choice (three options), one short
answer. -/
def qs0 : List Question :=
  [Question.multipleChoice "Q1" ["A", "B", "C"] "A" none,
   Question.shortAnswer "Q2" "ans" none]

/-- Witness for C7 as amended: the two-question set `qs0`. -/
theorem C7_order_preserving_translation_witness :
    ((Question.shortAnswer "Q2" "ans" none).hasOptions = false) ∧
    (questionToItem 1 (Question.shortAnswer "Q2" "ans" none)
      = { title := "Q2", kind := FieldKind.textQuestion, index := 1 }) ∧
    (qs0 ≠ []) ∧
    ((create_form_with_questions "f9" "QUIZ" qs0).1
      = [ServiceCall.createForm "QUIZ", ServiceCall.batchUpdate "f9" (buildRequests qs0)]) :=
  ⟨rfl,
   (C7_order_preserving_translation qs0 "f9" "QUIZ").2.2.2.1
     (Question.shortAnswer "Q2" "ans" none) 1 rfl,
   by decide,
   (C7_order_preserving_translation qs0 "f9" "QUIZ").2.2.2.2.2 (by decide)⟩

/-- C10: publishing an empty question set issues the creation request,
skips the batch population request entirely, and returns the viewform URL
`https://docs.google.com/forms/d/{formId}/viewform`. -/
theorem C10_empty_set_publishes (formId title : String) :
    (create_form_with_questions formId title []).1 = [ServiceCall.createForm title] ∧
    (create_form_with_questions formId title []).2
      = "https://docs.google.com/forms/d/" ++ formId ++ "/viewform" :=
  ⟨rfl, rfl⟩

end EduApp
